import Mathlib

/-!
Verification of the MarkItDown Server upload-handling code (`src/app.py`)
against its specification.  The Python module is shallowly embedded below:
pure helpers (`allowed_file`) become Lean functions on `String`/`List Char`;
the request handler `process_file` becomes a pure function of the request
together with an environment recording the outcome of each effectful step
(body read, temporary-file creation, write, converter call, deletion), and
it returns — besides the HTTP outcome — an explicit trace of the
filesystem effects so that resource claims can be stated.
-/

namespace MarkItDownServer

/-- The set `ALLOWED_EXTENSIONS` from app.py lines 81-88.  In Python it is a `set`;
the list below enumerates the same 26 strings (membership is all that the
code ever uses; the iteration order used to render the error message is
unspecified for a Python set, so the message text fixes one order). -/
def ALLOWED_EXTENSIONS : List String :=
  ["doc", "docx", "ppt", "pptx", "pdf", "xls", "xlsx", "odt", "ods", "odp", "txt",
   "jpg", "jpeg", "png", "gif", "bmp", "tiff", "webp", "svg",
   "mp3", "wav", "flac", "aac", "ogg", "m4a", "wma"]

/-- The constant `MAX_FILE_SIZE = 50 * 1024 * 1024` from app.py line 89. -/
def MAX_FILE_SIZE : Nat := 50 * 1024 * 1024

/-- The characters after the last `'.'` of the list, or `none` when no `'.'`
occurs.  This is the value of the Python expression
`filename.rsplit('.', 1)[1]` guarded by `'.' in filename`
(app.py line 118): `rsplit` with maxsplit 1 cuts at the last dot. -/
def afterLastDot : List Char → Option (List Char)
  | [] => none
  | c :: rest =>
    match afterLastDot rest with
    | some suf => some suf
    | none => if c = '.' then some rest else none

/-- The predicate `allowed_file` from app.py lines 107-118:
`if not filename: return False` (absent or empty string), then
`'.' in filename and filename.rsplit('.', 1)[1].lower() in ALLOWED_EXTENSIONS`.
Python `str.lower()` is modelled as lowering each character; for membership
in this fixed ASCII allow-set the two agree. -/
def allowed_file (filename : Option String) : Bool :=
  match filename with
  | none => false
  | some s =>
    if s == "" then false
    else
      match afterLastDot s.data with
      | none => false
      | some ext => ALLOWED_EXTENSIONS.contains (String.mk (ext.map Char.toLower))

/-- Outcome of one call of the external converter (`convert_to_md`,
app.py lines 120-133): either the Markdown text, or the message of the
exception it raised. -/
inductive ConvResult where
  | ok (text : String)
  | raises (msg : String)
deriving DecidableEq

/-- Environment of one request: the outcome of every effectful step the
handler performs.  `some m` in a `...Fails` field means that step raises an
exception whose textual description is `m`; `tempPath` is the unique name
`tempfile.NamedTemporaryFile` would choose; `convert` is the external
converter applied to the bytes that were written to the temp file (the
converter is given the path, and the file at that path holds exactly
`file_content`). -/
structure Env where
  readFails : Option String
  createFails : Option String
  writeFails : Option String
  deleteFails : Option String
  tempPath : String
  convert : List Nat → ConvResult

/-- The upload of one request: `file.filename` (optional in FastAPI) and the
byte payload returned by `await file.read()`. -/
structure Upload where
  filename : Option String
  content : List Nat

/-- JSON body of a response: `error: msg` or `markdown: text`. -/
inductive Payload where
  | errorP (msg : String)
  | markdownP (text : String)
deriving DecidableEq

/-- An HTTP response: status code and JSON body. -/
structure Response where
  status : Nat
  payload : Payload
deriving DecidableEq

/-- What the handler call produces at its boundary: a returned response, or
an exception that escaped the handler (which in the Python code can only
happen when the `finally` block itself raises). -/
inductive HandlerOutcome where
  | response (r : Response)
  | propagated (msg : String)
deriving DecidableEq

/-- Result of one run of `process_file`: the boundary outcome plus an
explicit trace of the effects the claims talk about — which temp files were
created, which still exist when the handler returns, whether the body was
read, and how many times the converter was invoked. -/
structure RunResult where
  outcome : HandlerOutcome
  tempCreated : List String
  tempRemaining : List String
  readInvoked : Bool
  convertCalls : Nat
deriving DecidableEq

/-- Python truthiness test `not file.filename` (app.py line 187):
true when the filename is absent or the empty string. -/
def filenameMissing (f : Option String) : Bool :=
  match f with
  | none => true
  | some s => s == ""

/-- The 400 message of app.py line 195.  A Python set has no specified
iteration order, so the rendered list fixes one order of the same strings. -/
def allowedTypesMsg : String :=
  "File type not allowed. Allowed types: " ++ String.intercalate ", " ALLOWED_EXTENSIONS

/-- The 413 message of app.py line 205: `MAX_FILE_SIZE / (1024*1024)`
formatted with no decimals is `50`. -/
def tooLargeMsg : String := "File too large. Maximum size: 50MB"

/-- The handler `process_file` from app.py lines 179-239, step by step:

* line 187: `if not file.filename` → 400 `Filename is required`;
* line 193: `if not allowed_file(file.filename)` → 400 `File type not allowed ...`;
* line 200 (inside `try`): `await file.read()`; an exception here is caught
  at line 231 → 500, and the `finally` sees `temp_file_path = None`;
* line 203: `len(file_content) > MAX_FILE_SIZE` → 413;
* line 210: `len(file_content) == 0` → 400 `File is empty`;
* lines 217-223: `NamedTemporaryFile(delete=False, ...)`; if creation raises,
  no file exists; the file is then written and only afterwards is
  `temp_file_path = temp_file.name` assigned, so if the write raises the
  created file is left on disk and the `finally` cannot delete it;
* line 226: the converter; success → 200 `{markdown}`, exception → 500;
* lines 231-233: `except Exception as e` → 500 with the error text;
* lines 235-239: `finally`: if `temp_file_path` is set and the file exists,
  `os.remove` it; this call is unguarded, so if it raises, the exception
  propagates out of the handler, discarding the determined response. -/
def process_file (env : Env) (file : Upload) : RunResult :=
  if filenameMissing file.filename then
    { outcome := .response ⟨400, .errorP "Filename is required"⟩,
      tempCreated := [], tempRemaining := [], readInvoked := false, convertCalls := 0 }
  else if !(allowed_file file.filename) then
    { outcome := .response ⟨400, .errorP allowedTypesMsg⟩,
      tempCreated := [], tempRemaining := [], readInvoked := false, convertCalls := 0 }
  else
    match env.readFails with
    | some m =>
      { outcome := .response ⟨500, .errorP m⟩,
        tempCreated := [], tempRemaining := [], readInvoked := true, convertCalls := 0 }
    | none =>
      if file.content.length > MAX_FILE_SIZE then
        { outcome := .response ⟨413, .errorP tooLargeMsg⟩,
          tempCreated := [], tempRemaining := [], readInvoked := true, convertCalls := 0 }
      else if file.content.length = 0 then
        { outcome := .response ⟨400, .errorP "File is empty"⟩,
          tempCreated := [], tempRemaining := [], readInvoked := true, convertCalls := 0 }
      else
        match env.createFails with
        | some m =>
          { outcome := .response ⟨500, .errorP m⟩,
            tempCreated := [], tempRemaining := [], readInvoked := true, convertCalls := 0 }
        | none =>
          match env.writeFails with
          | some m =>
            { outcome := .response ⟨500, .errorP m⟩,
              tempCreated := [env.tempPath], tempRemaining := [env.tempPath],
              readInvoked := true, convertCalls := 0 }
          | none =>
            let determined : Response :=
              match env.convert file.content with
              | .ok text => ⟨200, .markdownP text⟩
              | .raises m => ⟨500, .errorP m⟩
            match env.deleteFails with
            | some m =>
              { outcome := .propagated m,
                tempCreated := [env.tempPath], tempRemaining := [env.tempPath],
                readInvoked := true, convertCalls := 1 }
            | none =>
              { outcome := .response determined,
                tempCreated := [env.tempPath], tempRemaining := [],
                readInvoked := true, convertCalls := 1 }

theorem afterLastDot_eq_none (l : List Char) : afterLastDot l = none ↔ '.' ∉ l := by
  induction l with
  | nil => simp [afterLastDot]
  | cons c rest ih =>
    rw [afterLastDot]
    cases h : afterLastDot rest with
    | some suf =>
      have hmem : '.' ∈ rest := by
        by_contra hn
        simp [ih.mpr hn] at h
      simp [hmem]
    | none =>
      have hn : '.' ∉ rest := ih.mp h
      by_cases hc : c = '.'
      · simp [hc]
      · simp [hc, hn, Ne.symm hc]

theorem afterLastDot_eq_some (l ext : List Char) :
    afterLastDot l = some ext ↔ ∃ pre, l = pre ++ '.' :: ext ∧ '.' ∉ ext := by
  induction l with
  | nil =>
    simp [afterLastDot]
  | cons c rest ih =>
    rw [afterLastDot]
    cases h : afterLastDot rest with
    | some suf =>
      have hmem : '.' ∈ rest := by
        by_contra hn
        simp [(afterLastDot_eq_none rest).mpr hn] at h
      constructor
      · intro hse
        have hse' : suf = ext := by simpa using hse
        subst hse'
        obtain ⟨pre, hpre, hnd⟩ := ih.mp h
        exact ⟨c :: pre, by simp [hpre], hnd⟩
      · rintro ⟨pre, hpre, hnd⟩
        cases pre with
        | nil =>
          simp at hpre
          exact absurd (hpre.2 ▸ hmem) hnd
        | cons p pre' =>
          simp at hpre
          have : afterLastDot rest = some ext := ih.mpr ⟨pre', hpre.2, hnd⟩
          rw [h] at this
          simpa using this
    | none =>
      have hn : '.' ∉ rest := (afterLastDot_eq_none rest).mp h
      by_cases hc : c = '.'
      · subst hc
        simp only [if_pos rfl]
        constructor
        · intro hse
          have hse' : rest = ext := by simpa using hse
          subst hse'
          exact ⟨[], rfl, hn⟩
        · rintro ⟨pre, hpre, hnd⟩
          cases pre with
          | nil => simp at hpre; simp [hpre]
          | cons p pre' =>
            simp at hpre
            exact absurd (hpre.2 ▸ List.mem_append_right pre' (List.mem_cons_self '.' ext)) hn
      · simp only [if_neg hc]
        constructor
        · intro hse; cases hse
        · rintro ⟨pre, hpre, hnd⟩
          cases pre with
          | nil => simp at hpre; exact absurd hpre.1 hc
          | cons p pre' =>
            simp at hpre
            have : afterLastDot rest = some ext := ih.mpr ⟨pre', hpre.2, hnd⟩
            rw [h] at this
            cases this

theorem allowed_file_iff (s : String) :
    allowed_file (some s) = true ↔
      ∃ pre ext, s.data = pre ++ '.' :: ext ∧ '.' ∉ ext ∧
        ALLOWED_EXTENSIONS.contains (String.mk (ext.map Char.toLower)) = true := by
  rw [allowed_file]
  by_cases hs : s = ""
  · subst hs
    simp [afterLastDot]
  · rw [if_neg (by simpa using hs)]
    cases h : afterLastDot s.data with
    | none =>
      simp only [Bool.false_eq_true, false_iff]
      rintro ⟨pre, ext, hdec, hnd, _⟩
      have : afterLastDot s.data = some ext := (afterLastDot_eq_some _ _).mpr ⟨pre, hdec, hnd⟩
      rw [h] at this
      cases this
    | some e =>
      obtain ⟨pre, hpre, hnd⟩ := (afterLastDot_eq_some _ _).mp h
      constructor
      · intro hcont
        exact ⟨pre, e, hpre, hnd, hcont⟩
      · rintro ⟨pre', ext', hdec', hnd', hcont'⟩
        have : afterLastDot s.data = some ext' :=
          (afterLastDot_eq_some _ _).mpr ⟨pre', hdec', hnd'⟩
        rw [h] at this
        have he : e = ext' := by simpa using this
        subst he
        exact hcont'

/-- C3: `allowed_file(filename)` returns true iff the filename is non-empty,
contains a `'.'`, and the substring after the last `'.'` (the `ext` of the
unique decomposition `s = pre ++ "." ++ ext` with no `'.'` in `ext`),
converted to lower case, is in `ALLOWED_EXTENSIONS`; a filename ending in
`'.'`, and one with no `'.'`, are rejected; matching is case-insensitive
(`report.PDF` is accepted like `report.pdf`). -/
theorem C3_allowed_file_characterization :
    (∀ s : String, allowed_file (some s) = true ↔
        (s ≠ "" ∧ '.' ∈ s.data ∧
          ∃ pre ext, s.data = pre ++ '.' :: ext ∧ '.' ∉ ext ∧
            ALLOWED_EXTENSIONS.contains (String.mk (ext.map Char.toLower)) = true))
    ∧ allowed_file none = false
    ∧ allowed_file (some "report.PDF") = true
    ∧ allowed_file (some "report.pdf") = true
    ∧ allowed_file (some "file.") = false
    ∧ allowed_file (some "file") = false := by
  refine ⟨fun s => ?_, by decide, by decide, by decide, by decide, by decide⟩
  rw [allowed_file_iff]
  constructor
  · rintro ⟨pre, ext, hdec, hnd, hcont⟩
    refine ⟨?_, ?_, pre, ext, hdec, hnd, hcont⟩
    · intro he
      rw [he] at hdec
      exact absurd hdec.symm (by simp)
    · rw [hdec]
      exact List.mem_append_right pre (List.mem_cons_self '.' ext)
  · rintro ⟨_, _, pre, ext, hdec, hnd, hcont⟩
    exact ⟨pre, ext, hdec, hnd, hcont⟩

theorem C3_allowed_file_characterization_witness :
    allowed_file (some "a.pdf") = true :=
  (C3_allowed_file_characterization.1 "a.pdf").mpr
    ⟨by decide, by decide, ['a'], ['p', 'd', 'f'], by decide, by decide, by decide⟩

/-- The response determined inside the `try` block once the converter has
run (app.py lines 226-233): 200 with the Markdown on success, 500 with the
exception text on failure. -/
def determinedResponse : ConvResult → Response
  | .ok text => ⟨200, .markdownP text⟩
  | .raises m => ⟨500, .errorP m⟩

/-- A fully successful pass through the handler (validation passes, every
effectful step succeeds, deletion succeeds): the run creates exactly the one
temp file, deletes it, and returns the response determined by the converter. -/
theorem process_file_run_ok (env : Env) (file : Upload)
    (h1 : filenameMissing file.filename = false)
    (h2 : allowed_file file.filename = true)
    (h3 : env.readFails = none)
    (h4 : file.content.length ≤ MAX_FILE_SIZE)
    (h5 : file.content.length ≠ 0)
    (h6 : env.createFails = none)
    (h7 : env.writeFails = none)
    (h8 : env.deleteFails = none) :
    process_file env file =
      { outcome := .response (determinedResponse (env.convert file.content)),
        tempCreated := [env.tempPath], tempRemaining := [],
        readInvoked := true, convertCalls := 1 } := by
  have h4' : ¬ file.content.length > MAX_FILE_SIZE := Nat.not_lt.mpr h4
  cases hc : env.convert file.content <;>
    simp [process_file, determinedResponse, h1, h2, h3, h4', h5, h6, h7, h8, hc]

/-- A pass in which everything up to the converter succeeds but the
`os.remove` of the `finally` block raises: the exception propagates out of
the handler and the temp file is left on disk. -/
theorem process_file_run_delete_fails (env : Env) (file : Upload) (m : String)
    (h1 : filenameMissing file.filename = false)
    (h2 : allowed_file file.filename = true)
    (h3 : env.readFails = none)
    (h4 : file.content.length ≤ MAX_FILE_SIZE)
    (h5 : file.content.length ≠ 0)
    (h6 : env.createFails = none)
    (h7 : env.writeFails = none)
    (h8 : env.deleteFails = some m) :
    process_file env file =
      { outcome := .propagated m,
        tempCreated := [env.tempPath], tempRemaining := [env.tempPath],
        readInvoked := true, convertCalls := 1 } := by
  have h4' : ¬ file.content.length > MAX_FILE_SIZE := Nat.not_lt.mpr h4
  simp [process_file, h1, h2, h3, h4', h5, h6, h7, h8]

/-- A 413 response is only produced on the oversize branch. -/
theorem length_gt_of_413 (env : Env) (file : Upload) (p : Payload)
    (h : (process_file env file).outcome = .response ⟨413, p⟩) :
    file.content.length > MAX_FILE_SIZE := by
  by_contra hn
  by_cases h1 : filenameMissing file.filename
  · simp [process_file, h1] at h
  · by_cases h2 : allowed_file file.filename
    · cases h3 : env.readFails with
      | some m => simp [process_file, h1, h2, h3] at h
      | none =>
        by_cases h5 : file.content.length = 0
        · simp [process_file, h1, h2, h3, hn, h5] at h
        · cases h6 : env.createFails with
          | some m => simp [process_file, h1, h2, h3, hn, h5, h6] at h
          | none =>
            cases h7 : env.writeFails with
            | some m => simp [process_file, h1, h2, h3, hn, h5, h6, h7] at h
            | none =>
              cases h8 : env.deleteFails with
              | some m => simp [process_file, h1, h2, h3, hn, h5, h6, h7, h8] at h
              | none =>
                cases hc : env.convert file.content <;>
                  simp [process_file, h1, h2, h3, hn, h5, h6, h7, h8, hc] at h
    · simp [process_file, h1, h2] at h

/-- C1: the validation branches of `process_file` and their status codes:
missing/empty filename → 400; disallowed extension → 400; body longer than
`MAX_FILE_SIZE` (52428800 bytes) → 413; empty body (with admissible filename
and size) → 400; and a body of exactly `MAX_FILE_SIZE` bytes is never
rejected with 413. -/
theorem C1_validation_statuses (env : Env) (file : Upload) :
    (filenameMissing file.filename = true →
      (process_file env file).outcome = .response ⟨400, .errorP "Filename is required"⟩)
    ∧ (filenameMissing file.filename = false → allowed_file file.filename = false →
      (process_file env file).outcome = .response ⟨400, .errorP allowedTypesMsg⟩)
    ∧ (filenameMissing file.filename = false → allowed_file file.filename = true →
      env.readFails = none → file.content.length > MAX_FILE_SIZE →
      (process_file env file).outcome = .response ⟨413, .errorP tooLargeMsg⟩)
    ∧ (filenameMissing file.filename = false → allowed_file file.filename = true →
      env.readFails = none → file.content.length = 0 →
      (process_file env file).outcome = .response ⟨400, .errorP "File is empty"⟩)
    ∧ (file.content.length = MAX_FILE_SIZE →
      ∀ p, (process_file env file).outcome ≠ .response ⟨413, p⟩) := by
  refine ⟨?_, ?_, ?_, ?_, ?_⟩
  · intro h1
    simp [process_file, h1]
  · intro h1 h2
    simp [process_file, h1, h2]
  · intro h1 h2 h3 h4
    simp [process_file, h1, h2, h3, h4]
  · intro h1 h2 h3 h4
    simp [process_file, h1, h2, h3, h4]
  · intro hlen p hresp
    have := length_gt_of_413 env file p hresp
    rw [hlen] at this
    exact lt_irrefl _ this

/-- An environment in which every effectful step succeeds and the converter
returns fixed Markdown text. -/
def envOK : Env :=
  { readFails := none, createFails := none, writeFails := none, deleteFails := none,
    tempPath := "tmp1.pdf", convert := fun _ => .ok "converted markdown" }

theorem C1_validation_statuses_witness :
    ((process_file envOK ⟨none, [1]⟩).outcome
        = .response ⟨400, .errorP "Filename is required"⟩)
    ∧ ((process_file envOK ⟨some "malware.exe", [1]⟩).outcome
        = .response ⟨400, .errorP allowedTypesMsg⟩)
    ∧ ((process_file envOK ⟨some "big.pdf", List.replicate (MAX_FILE_SIZE + 1) 0⟩).outcome
        = .response ⟨413, .errorP tooLargeMsg⟩)
    ∧ ((process_file envOK ⟨some "empty.txt", []⟩).outcome
        = .response ⟨400, .errorP "File is empty"⟩)
    ∧ ((process_file envOK ⟨some "exact.pdf", List.replicate MAX_FILE_SIZE 0⟩).outcome
        ≠ .response ⟨413, .errorP tooLargeMsg⟩) :=
  ⟨(C1_validation_statuses envOK ⟨none, [1]⟩).1 rfl,
   (C1_validation_statuses envOK ⟨some "malware.exe", [1]⟩).2.1 (by decide) (by decide),
   (C1_validation_statuses envOK ⟨some "big.pdf", _⟩).2.2.1 (by decide) (by decide) rfl
     (by rw [List.length_replicate]; exact Nat.lt_succ_self _),
   (C1_validation_statuses envOK ⟨some "empty.txt", []⟩).2.2.2.1 (by decide) (by decide) rfl rfl,
   (C1_validation_statuses envOK ⟨some "exact.pdf", _⟩).2.2.2.2
     (List.length_replicate MAX_FILE_SIZE 0) (.errorP tooLargeMsg)⟩

/-- A small valid upload: allowed extension, four bytes. -/
def uploadPdf : Upload := ⟨some "report.pdf", [37, 80, 68, 70]⟩

/-- A small valid upload with a txt extension. -/
def uploadTxt : Upload := ⟨some "notes.txt", [104, 105]⟩

/-- C2: when validation passes and the temp path gets recorded (creation and
write succeed), exactly one temp file is created and — whatever the
converter does — it is deleted by the time the handler returns its
response. -/
theorem C2_temp_lifecycle (env : Env) (file : Upload)
    (h1 : filenameMissing file.filename = false)
    (h2 : allowed_file file.filename = true)
    (h3 : env.readFails = none)
    (h4 : file.content.length ≤ MAX_FILE_SIZE)
    (h5 : file.content.length ≠ 0)
    (h6 : env.createFails = none)
    (h7 : env.writeFails = none)
    (h8 : env.deleteFails = none) :
    (process_file env file).tempCreated = [env.tempPath]
    ∧ (process_file env file).tempRemaining = []
    ∧ (process_file env file).outcome
        = .response (determinedResponse (env.convert file.content)) := by
  rw [process_file_run_ok env file h1 h2 h3 h4 h5 h6 h7 h8]
  exact ⟨rfl, rfl, rfl⟩

theorem C2_temp_lifecycle_witness :
    (process_file envOK uploadPdf).tempCreated = ["tmp1.pdf"]
    ∧ (process_file envOK uploadPdf).tempRemaining = []
    ∧ (process_file envOK uploadPdf).outcome
        = .response (determinedResponse (envOK.convert uploadPdf.content)) :=
  C2_temp_lifecycle envOK uploadPdf (by decide) (by decide) rfl (by decide) (by decide)
    rfl rfl rfl

/-- C4: every validation-failure path (missing filename, disallowed
extension, oversize body, empty body) answers without any filesystem write:
no temp file is created and none remains. -/
theorem C4_no_temp_on_validation_failure (env : Env) (file : Upload) :
    (filenameMissing file.filename = true →
      (process_file env file).tempCreated = [] ∧ (process_file env file).tempRemaining = [])
    ∧ (allowed_file file.filename = false →
      (process_file env file).tempCreated = [] ∧ (process_file env file).tempRemaining = [])
    ∧ (env.readFails = none → file.content.length > MAX_FILE_SIZE →
      (process_file env file).tempCreated = [] ∧ (process_file env file).tempRemaining = [])
    ∧ (env.readFails = none → file.content.length = 0 →
      (process_file env file).tempCreated = [] ∧ (process_file env file).tempRemaining = []) := by
  refine ⟨?_, ?_, ?_, ?_⟩
  · intro h1
    simp [process_file, h1]
  · intro h2
    by_cases h1 : filenameMissing file.filename
    · simp [process_file, h1]
    · simp [process_file, h1, h2]
  · intro h3 h4
    by_cases h1 : filenameMissing file.filename
    · simp [process_file, h1]
    · by_cases h2 : allowed_file file.filename
      · simp [process_file, h1, h2, h3, h4]
      · simp [process_file, h1, h2]
  · intro h3 h5
    have h4 : ¬ file.content.length > MAX_FILE_SIZE := by
      rw [h5]; decide
    by_cases h1 : filenameMissing file.filename
    · simp [process_file, h1]
    · by_cases h2 : allowed_file file.filename
      · simp [process_file, h1, h2, h3, h4, h5]
      · simp [process_file, h1, h2]

theorem C4_no_temp_on_validation_failure_witness :
    (process_file envOK ⟨some "malware.exe", [1]⟩).tempCreated = []
    ∧ (process_file envOK ⟨some "malware.exe", [1]⟩).tempRemaining = [] :=
  (C4_no_temp_on_validation_failure envOK ⟨some "malware.exe", [1]⟩).2.1 (by decide)

/-- The converter is invoked at most once per request, on every path. -/
theorem convertCalls_le_one (env : Env) (file : Upload) :
    (process_file env file).convertCalls ≤ 1 := by
  by_cases h1 : filenameMissing file.filename
  · simp [process_file, h1]
  · by_cases h2 : allowed_file file.filename
    · cases h3 : env.readFails with
      | some m => simp [process_file, h1, h2, h3]
      | none =>
        by_cases h4 : file.content.length > MAX_FILE_SIZE
        · simp [process_file, h1, h2, h3, h4]
        · by_cases h5 : file.content.length = 0
          · simp [process_file, h1, h2, h3, h4, h5]
          · cases h6 : env.createFails with
            | some m => simp [process_file, h1, h2, h3, h4, h5, h6]
            | none =>
              cases h7 : env.writeFails with
              | some m => simp [process_file, h1, h2, h3, h4, h5, h6, h7]
              | none =>
                cases h8 : env.deleteFails with
                | some m => simp [process_file, h1, h2, h3, h4, h5, h6, h7, h8]
                | none =>
                  cases hc : env.convert file.content <;>
                    simp [process_file, h1, h2, h3, h4, h5, h6, h7, h8, hc]
    · simp [process_file, h1, h2]

/-- C5: every exception raised after validation passes — during the body
read, the temp-file creation, the write, or the converter call — is caught
at the handler boundary and mapped to a 500 response whose payload carries
the exception text; the converter is never invoked more than once. -/
theorem C5_exception_500 (env : Env) (file : Upload)
    (h1 : filenameMissing file.filename = false)
    (h2 : allowed_file file.filename = true)
    (h8 : env.deleteFails = none) :
    (∀ m, env.readFails = some m →
      (process_file env file).outcome = .response ⟨500, .errorP m⟩
      ∧ (process_file env file).convertCalls = 0)
    ∧ (∀ m, env.readFails = none → file.content.length ≤ MAX_FILE_SIZE →
        file.content.length ≠ 0 → env.createFails = some m →
      (process_file env file).outcome = .response ⟨500, .errorP m⟩
      ∧ (process_file env file).convertCalls = 0)
    ∧ (∀ m, env.readFails = none → file.content.length ≤ MAX_FILE_SIZE →
        file.content.length ≠ 0 → env.createFails = none → env.writeFails = some m →
      (process_file env file).outcome = .response ⟨500, .errorP m⟩
      ∧ (process_file env file).convertCalls = 0)
    ∧ (∀ m, env.readFails = none → file.content.length ≤ MAX_FILE_SIZE →
        file.content.length ≠ 0 → env.createFails = none → env.writeFails = none →
        env.convert file.content = .raises m →
      (process_file env file).outcome = .response ⟨500, .errorP m⟩
      ∧ (process_file env file).convertCalls = 1)
    ∧ (process_file env file).convertCalls ≤ 1 := by
  refine ⟨?_, ?_, ?_, ?_, convertCalls_le_one env file⟩
  · intro m h3
    simp [process_file, h1, h2, h3]
  · intro m h3 h4 h5 h6
    have h4' : ¬ file.content.length > MAX_FILE_SIZE := Nat.not_lt.mpr h4
    simp [process_file, h1, h2, h3, h4', h5, h6]
  · intro m h3 h4 h5 h6 h7
    have h4' : ¬ file.content.length > MAX_FILE_SIZE := Nat.not_lt.mpr h4
    simp [process_file, h1, h2, h3, h4', h5, h6, h7]
  · intro m h3 h4 h5 h6 h7 hc
    have h4' : ¬ file.content.length > MAX_FILE_SIZE := Nat.not_lt.mpr h4
    simp [process_file, h1, h2, h3, h4', h5, h6, h7, h8, hc]

/-- An environment in which reading the upload body raises. -/
def envReadFail : Env :=
  { readFails := some "IOError: read failed", createFails := none, writeFails := none,
    deleteFails := none, tempPath := "tmp2.txt", convert := fun _ => .ok "never reached" }

/-- An environment in which the converter raises. -/
def envConvRaises : Env :=
  { readFails := none, createFails := none, writeFails := none, deleteFails := none,
    tempPath := "tmp3.txt", convert := fun _ => .raises "ConversionError: boom" }

theorem C5_exception_500_witness :
    ((process_file envReadFail uploadTxt).outcome
        = .response ⟨500, .errorP "IOError: read failed"⟩
      ∧ (process_file envReadFail uploadTxt).convertCalls = 0)
    ∧ ((process_file envConvRaises uploadTxt).outcome
        = .response ⟨500, .errorP "ConversionError: boom"⟩
      ∧ (process_file envConvRaises uploadTxt).convertCalls = 1) :=
  ⟨(C5_exception_500 envReadFail uploadTxt (by decide) (by decide) rfl).1 _ rfl,
   (C5_exception_500 envConvRaises uploadTxt (by decide) (by decide) rfl).2.2.2.1 _
     rfl (by decide) (by decide) rfl rfl rfl⟩

/-- An environment in which everything succeeds except the `os.remove` of
the `finally` block, which raises. -/
def envDeleteFails : Env :=
  { readFails := none, createFails := none, writeFails := none,
    deleteFails := some "PermissionError: remove failed", tempPath := "tmp4.txt",
    convert := fun _ => .ok "ok md" }

/-- C6 counterexample: with a valid upload, a successful conversion and a
failing `os.remove`, the handler does not return the already-determined 200
response — the unguarded `finally` lets the deletion error propagate past
the handler boundary. -/
theorem C6_counterexample :
    (process_file envDeleteFails ⟨some "a.txt", [104, 105]⟩).outcome
        = .propagated "PermissionError: remove failed"
    ∧ (process_file envDeleteFails ⟨some "a.txt", [104, 105]⟩).outcome
        ≠ .response ⟨200, .markdownP "ok md"⟩ := by
  constructor
  · decide
  · decide

/-- C6 amended: a failure of the temp-file deletion step does mask the
already-determined response — the deletion error propagates out of the
handler and no response is returned; the determined response is returned
exactly when the deletion succeeds. -/
theorem C6_deletion_failure_propagates (env : Env) (file : Upload)
    (h1 : filenameMissing file.filename = false)
    (h2 : allowed_file file.filename = true)
    (h3 : env.readFails = none)
    (h4 : file.content.length ≤ MAX_FILE_SIZE)
    (h5 : file.content.length ≠ 0)
    (h6 : env.createFails = none)
    (h7 : env.writeFails = none) :
    (∀ m, env.deleteFails = some m →
      (process_file env file).outcome = .propagated m
      ∧ ∀ r, (process_file env file).outcome ≠ .response r)
    ∧ (env.deleteFails = none →
      (process_file env file).outcome
        = .response (determinedResponse (env.convert file.content))) := by
  constructor
  · intro m h8
    rw [process_file_run_delete_fails env file m h1 h2 h3 h4 h5 h6 h7 h8]
    exact ⟨rfl, fun r h => by cases h⟩
  · intro h8
    rw [process_file_run_ok env file h1 h2 h3 h4 h5 h6 h7 h8]

theorem C6_deletion_failure_propagates_witness :
    (process_file envDeleteFails ⟨some "b.txt", [104]⟩).outcome
        = .propagated "PermissionError: remove failed"
    ∧ (process_file envOK uploadPdf).outcome
        = .response (determinedResponse (envOK.convert uploadPdf.content)) :=
  ⟨((C6_deletion_failure_propagates envDeleteFails ⟨some "b.txt", [104]⟩ (by decide)
      (by decide) rfl (by decide) (by decide) rfl rfl).1 _ rfl).1,
   (C6_deletion_failure_propagates envOK uploadPdf (by decide) (by decide) rfl
      (by decide) (by decide) rfl rfl).2 rfl⟩

/-- C9: for two requests carrying the same filename and byte-identical
content, run under the same deterministic converter (a function of the file
bytes) with all I/O steps succeeding, the handler produces the same outcome
— in particular the per-request temp path, the only per-request hidden
state, does not affect the response. -/
theorem C9_repeatability (conv : List Nat → ConvResult) (env1 env2 : Env) (file : Upload)
    (hc1 : env1.convert = conv) (hc2 : env2.convert = conv)
    (h1r : env1.readFails = none) (h1c : env1.createFails = none)
    (h1w : env1.writeFails = none) (h1d : env1.deleteFails = none)
    (h2r : env2.readFails = none) (h2c : env2.createFails = none)
    (h2w : env2.writeFails = none) (h2d : env2.deleteFails = none) :
    (process_file env1 file).outcome = (process_file env2 file).outcome := by
  by_cases h1 : filenameMissing file.filename
  · simp [process_file, h1]
  · by_cases h2 : allowed_file file.filename
    · by_cases h4 : file.content.length > MAX_FILE_SIZE
      · simp [process_file, h1, h2, h1r, h2r, h4]
      · by_cases h5 : file.content.length = 0
        · simp [process_file, h1, h2, h1r, h2r, h4, h5]
        · rw [process_file_run_ok env1 file (by simpa using h1) h2 h1r
              (Nat.not_lt.mp h4) h5 h1c h1w h1d,
            process_file_run_ok env2 file (by simpa using h1) h2 h2r
              (Nat.not_lt.mp h4) h5 h2c h2w h2d, hc1, hc2]
    · simp [process_file, h1, h2]

/-- A copy of `envOK` whose unique temp path differs. -/
def envOK2 : Env :=
  { readFails := none, createFails := none, writeFails := none, deleteFails := none,
    tempPath := "tmp9.pdf", convert := fun _ => .ok "converted markdown" }

theorem C9_repeatability_witness :
    (process_file envOK uploadPdf).outcome = (process_file envOK2 uploadPdf).outcome :=
  C9_repeatability (fun _ => .ok "converted markdown") envOK envOK2 uploadPdf
    rfl rfl rfl rfl rfl rfl rfl rfl rfl rfl

/-- C10: when several validation rules fail at once the reported error
follows the fixed order of the checks: missing filename first; then the
extension check (without reading the body); then the size check; an empty
body under a disallowed extension is answered with the extension error, not
with `File is empty`. -/
theorem C10_error_precedence (env : Env) (file : Upload) :
    (filenameMissing file.filename = true →
      (process_file env file).outcome = .response ⟨400, .errorP "Filename is required"⟩
      ∧ (process_file env file).readInvoked = false)
    ∧ (filenameMissing file.filename = false → allowed_file file.filename = false →
      (process_file env file).outcome = .response ⟨400, .errorP allowedTypesMsg⟩
      ∧ (process_file env file).readInvoked = false)
    ∧ (filenameMissing file.filename = false → allowed_file file.filename = true →
      env.readFails = none → file.content.length > MAX_FILE_SIZE →
      (process_file env file).outcome = .response ⟨413, .errorP tooLargeMsg⟩)
    ∧ (filenameMissing file.filename = false → allowed_file file.filename = false →
      file.content.length = 0 →
      (process_file env file).outcome ≠ .response ⟨400, .errorP "File is empty"⟩) := by
  refine ⟨?_, ?_, ?_, ?_⟩
  · intro h1
    simp [process_file, h1]
  · intro h1 h2
    simp [process_file, h1, h2]
  · intro h1 h2 h3 h4
    simp [process_file, h1, h2, h3, h4]
  · intro h1 h2 _
    simp only [process_file, h1, h2, Bool.not_false, if_false, if_true, Bool.false_eq_true,
      Bool.not_true]
    decide

theorem C10_error_precedence_witness :
    ((process_file envOK ⟨some "x.exe", []⟩).outcome
        = .response ⟨400, .errorP allowedTypesMsg⟩
      ∧ (process_file envOK ⟨some "x.exe", []⟩).readInvoked = false)
    ∧ (process_file envOK ⟨some "x.exe", []⟩).outcome
        ≠ .response ⟨400, .errorP "File is empty"⟩ :=
  ⟨(C10_error_precedence envOK ⟨some "x.exe", []⟩).2.1 (by decide) (by decide),
   (C10_error_precedence envOK ⟨some "x.exe", []⟩).2.2.2 (by decide) (by decide) rfl⟩

/-- Modelled from the spec: the enforcement of the per-client limit lives in
the external slowapi library — src/app.py lines 61-69 only construct the
`Limiter` with the configured window and register its 429 exception handler.
Following the spec, the limiter wraps the handler: it tracks request counts
per client address within the window and answers 429 before the handler
body runs once the threshold is reached. -/
structure RateConfig where
  enabled : Bool
  available : Bool
  threshold : Nat

/-- Requests already counted for a client within the current window. -/
def windowCount (st : List (String × Nat)) (client : String) : Nat :=
  match st.find? (fun p => p.fst == client) with
  | some p => p.snd
  | none => 0

/-- Modelled from the spec: the conversion handler wrapped by the rate
limiter; a request from a client whose count has reached the threshold is
answered 429 with a structured error before the handler body runs, so no
validation, temp-file or converter work happens for it. -/
def process_file_rate_limited (cfg : RateConfig) (st : List (String × Nat))
    (client : String) (env : Env) (file : Upload) : RunResult :=
  if cfg.enabled && cfg.available && decide (cfg.threshold ≤ windowCount st client) then
    { outcome := .response ⟨429, .errorP "Rate limit exceeded"⟩,
      tempCreated := [], tempRemaining := [], readInvoked := false, convertCalls := 0 }
  else process_file env file

/-- C7: with rate limiting enabled and available, a request from a client
that has reached the configured threshold within the window receives 429
with an error payload, and none of the handler body runs: the body is not
read, no temp file is created, and the converter is not invoked. -/
theorem C7_rate_limit_429 (cfg : RateConfig) (st : List (String × Nat))
    (client : String) (env : Env) (file : Upload)
    (he : cfg.enabled = true) (ha : cfg.available = true)
    (hc : cfg.threshold ≤ windowCount st client) :
    process_file_rate_limited cfg st client env file =
      { outcome := .response ⟨429, .errorP "Rate limit exceeded"⟩,
        tempCreated := [], tempRemaining := [], readInvoked := false,
        convertCalls := 0 } := by
  simp [process_file_rate_limited, he, ha, hc]

theorem C7_rate_limit_429_witness :
    process_file_rate_limited ⟨true, true, 1⟩ [("10.0.0.7", 1)] "10.0.0.7" envOK uploadPdf =
      { outcome := .response ⟨429, .errorP "Rate limit exceeded"⟩,
        tempCreated := [], tempRemaining := [], readInvoked := false,
        convertCalls := 0 } :=
  C7_rate_limit_429 ⟨true, true, 1⟩ [("10.0.0.7", 1)] "10.0.0.7" envOK uploadPdf
    rfl rfl (by decide)

/-- The decimal digit `n` as a character (`0 ≤ n ≤ 9` in every use below). -/
def digitChar (n : Nat) : Char := Char.ofNat (48 + n)

/-- Two-digit zero-padded decimal rendering. -/
def pad2 (n : Nat) : List Char := [digitChar (n / 10), digitChar (n % 10)]

/-- Four-digit zero-padded decimal rendering. -/
def pad4 (n : Nat) : List Char :=
  [digitChar (n / 1000), digitChar (n / 100 % 10), digitChar (n / 10 % 10), digitChar (n % 10)]

/-- Six-digit zero-padded decimal rendering. -/
def pad6 (n : Nat) : List Char :=
  [digitChar (n / 100000), digitChar (n / 10000 % 10), digitChar (n / 1000 % 10),
   digitChar (n / 100 % 10), digitChar (n / 10 % 10), digitChar (n % 10)]

/-- A UTC wall-clock instant as `datetime.utcnow()` yields it. -/
structure DateTimeU where
  year : Nat
  month : Nat
  day : Nat
  hour : Nat
  minute : Nat
  second : Nat
  microsecond : Nat

/-- Python `datetime.isoformat()` as called on app.py line 159:
`YYYY-MM-DDTHH:MM:SS`, followed by `.ffffff` exactly when the microsecond
field is nonzero. -/
def isoformat (d : DateTimeU) : String :=
  String.mk (pad4 d.year ++ '-' :: (pad2 d.month ++ '-' :: (pad2 d.day ++ 'T' ::
    (pad2 d.hour ++ ':' :: (pad2 d.minute ++ ':' :: (pad2 d.second ++
      (if d.microsecond = 0 then [] else '.' :: pad6 d.microsecond)))))))

/-- Consume exactly `n` decimal digits from the front of the list. -/
def chompDigits : Nat → List Char → Option (List Char)
  | 0, l => some l
  | _ + 1, [] => none
  | n + 1, c :: l => if c.isDigit then chompDigits n l else none

/-- Consume exactly the character `ch` from the front of the list. -/
def chompChar (ch : Char) : List Char → Option (List Char)
  | [] => none
  | c :: l => if c = ch then some l else none

/-- Consume a `YYYY-MM-DDTHH:MM:SS` date-time from the front of the list. -/
def afterDateTime (l : List Char) : Option (List Char) :=
  (((((((((chompDigits 4 l).bind (chompChar '-')).bind (chompDigits 2)).bind
    (chompChar '-')).bind (chompDigits 2)).bind (chompChar 'T')).bind
    (chompDigits 2)).bind (chompChar ':')).bind (chompDigits 2)).bind
    (chompChar ':') |>.bind (chompDigits 2)

/-- Well-formedness of an ISO-8601 date-time string: a full
`YYYY-MM-DDTHH:MM:SS` date-time optionally followed by `.ffffff`. -/
def isISO8601 (s : String) : Bool :=
  match afterDateTime s.data with
  | none => false
  | some rest =>
    match rest with
    | [] => true
    | c :: fs => c == '.' && (chompDigits 6 fs == some [])

theorem isDigit_digitChar (k : Nat) (h : k ≤ 9) : (digitChar k).isDigit = true := by
  interval_cases k <;> decide

theorem chompDigits_pad2 (n : Nat) (h : n < 100) :
    ∀ rest, chompDigits 2 (pad2 n ++ rest) = some rest := by
  intro rest
  have h1 : n / 10 ≤ 9 := by omega
  have h2 : n % 10 ≤ 9 := by omega
  simp [pad2, chompDigits, isDigit_digitChar _ h1, isDigit_digitChar _ h2]

theorem chompDigits_pad4 (n : Nat) (h : n < 10000) :
    ∀ rest, chompDigits 4 (pad4 n ++ rest) = some rest := by
  intro rest
  have h1 : n / 1000 ≤ 9 := by omega
  have h2 : n / 100 % 10 ≤ 9 := by omega
  have h3 : n / 10 % 10 ≤ 9 := by omega
  have h4 : n % 10 ≤ 9 := by omega
  simp [pad4, chompDigits, isDigit_digitChar _ h1, isDigit_digitChar _ h2,
    isDigit_digitChar _ h3, isDigit_digitChar _ h4]

theorem chompDigits_pad6 (n : Nat) (h : n < 1000000) :
    ∀ rest, chompDigits 6 (pad6 n ++ rest) = some rest := by
  intro rest
  have h1 : n / 100000 ≤ 9 := by omega
  have h2 : n / 10000 % 10 ≤ 9 := by omega
  have h3 : n / 1000 % 10 ≤ 9 := by omega
  have h4 : n / 100 % 10 ≤ 9 := by omega
  have h5 : n / 10 % 10 ≤ 9 := by omega
  have h6 : n % 10 ≤ 9 := by omega
  simp [pad6, chompDigits, isDigit_digitChar _ h1, isDigit_digitChar _ h2,
    isDigit_digitChar _ h3, isDigit_digitChar _ h4, isDigit_digitChar _ h5,
    isDigit_digitChar _ h6]

theorem afterDateTime_isoformat (d : DateTimeU)
    (hy : d.year < 10000) (hmo : d.month < 100) (hd : d.day < 100)
    (hh : d.hour < 100) (hmi : d.minute < 100) (hs : d.second < 100) :
    afterDateTime (isoformat d).data =
      some (if d.microsecond = 0 then [] else '.' :: pad6 d.microsecond) := by
  simp [afterDateTime, isoformat, chompChar,
    chompDigits_pad4 _ hy, chompDigits_pad2 _ hmo, chompDigits_pad2 _ hd,
    chompDigits_pad2 _ hh, chompDigits_pad2 _ hmi, chompDigits_pad2 _ hs]

theorem isISO8601_isoformat (d : DateTimeU)
    (hy : d.year < 10000) (hmo : d.month < 100) (hd : d.day < 100)
    (hh : d.hour < 100) (hmi : d.minute < 100) (hs : d.second < 100)
    (hus : d.microsecond < 1000000) :
    isISO8601 (isoformat d) = true := by
  rw [isISO8601, afterDateTime_isoformat d hy hmo hd hh hmi hs]
  by_cases hm : d.microsecond = 0
  · simp [hm]
  · have h6 := chompDigits_pad6 d.microsecond hus []
    rw [List.append_nil] at h6
    simp [hm, h6]

/-- Configuration the health endpoint reads: `WORKERS`,
`ENABLE_RATE_LIMIT`, `RATE_LIMIT_AVAILABLE` (slowapi importable) and the
`RATE_LIMIT` window string (app.py lines 19-34). -/
structure AppConfig where
  workers : Nat
  enableRateLimit : Bool
  rateLimitAvailable : Bool
  rateLimit : String

/-- The JSON object returned by `GET /health`. -/
structure HealthReply where
  status : String
  timestamp : String
  service : String
  version : String
  workers : Nat
  rate_limit_enabled : Bool
  rate_limit : Option String
deriving DecidableEq

/-- The endpoint `health_check` from app.py lines 155-165. -/
def health_check (cfg : AppConfig) (now : DateTimeU) : HealthReply :=
  { status := "healthy",
    timestamp := isoformat now,
    service := "MarkItDown Server",
    version := "1.0.0",
    workers := cfg.workers,
    rate_limit_enabled := cfg.enableRateLimit && cfg.rateLimitAvailable,
    rate_limit :=
      if cfg.enableRateLimit && cfg.rateLimitAvailable then some cfg.rateLimit else none }

/-- C8: `GET /health` returns the literal status `healthy`, a well-formed
ISO-8601 UTC timestamp, the fixed service name and version, the configured
worker count, a `rate_limit_enabled` flag that holds iff rate limiting is
both enabled and available, and a `rate_limit` field equal to the
configured window exactly when that flag holds and null otherwise. -/
theorem C8_health_check (cfg : AppConfig) (now : DateTimeU)
    (hy : now.year < 10000) (hmo : now.month < 100) (hd : now.day < 100)
    (hh : now.hour < 100) (hmi : now.minute < 100) (hs : now.second < 100)
    (hus : now.microsecond < 1000000) :
    (health_check cfg now).status = "healthy"
    ∧ isISO8601 (health_check cfg now).timestamp = true
    ∧ (health_check cfg now).service = "MarkItDown Server"
    ∧ (health_check cfg now).version = "1.0.0"
    ∧ (health_check cfg now).workers = cfg.workers
    ∧ (health_check cfg now).rate_limit_enabled
        = (cfg.enableRateLimit && cfg.rateLimitAvailable)
    ∧ ((health_check cfg now).rate_limit_enabled = true →
        (health_check cfg now).rate_limit = some cfg.rateLimit)
    ∧ ((health_check cfg now).rate_limit_enabled = false →
        (health_check cfg now).rate_limit = none) := by
  refine ⟨rfl, ?_, rfl, rfl, rfl, rfl, ?_, ?_⟩
  · exact isISO8601_isoformat now hy hmo hd hh hmi hs hus
  · intro h
    simp only [health_check] at h ⊢
    rw [if_pos h]
  · intro h
    simp only [health_check] at h ⊢
    rw [if_neg (by rw [h]; exact Bool.false_ne_true)]

theorem C8_health_check_witness :
    (health_check ⟨4, true, true, "60/minute"⟩ ⟨2026, 10, 12, 8, 30, 5, 123456⟩).status
        = "healthy"
    ∧ isISO8601
        (health_check ⟨4, true, true, "60/minute"⟩ ⟨2026, 10, 12, 8, 30, 5, 123456⟩).timestamp
        = true
    ∧ (health_check ⟨4, true, true, "60/minute"⟩ ⟨2026, 10, 12, 8, 30, 5, 123456⟩).rate_limit
        = some "60/minute" := by
  have h := C8_health_check ⟨4, true, true, "60/minute"⟩ ⟨2026, 10, 12, 8, 30, 5, 123456⟩
    (by decide) (by decide) (by decide) (by decide) (by decide) (by decide) (by decide)
  exact ⟨h.1, h.2.1, h.2.2.2.2.2.2.1 rfl⟩

end MarkItDownServer
